import Mathlib

/-!
Shallow embedding of `src/efficiency-analyzer.py` — the analysis pipeline of the
GenAI-Powered Operational Efficiency Dashboard: anomaly detection
(`detect_anomalies`), per-department utilization forecasting
(`forecast_resources`), the external reasoning call (`analyze_with_gpt`) and the
report builder (`generate_insights_report`).

Modelling conventions:
  * Calendar dates are day numbers (`Int`); pandas timestamps only ever flow
    through comparisons and grouping here.
  * Python floats are modelled as `ℚ`; quantities that are irrational in the
    source (standard deviations, Pearson correlation) are expressed over `ℝ`
    via `Real.sqrt` in the statements, while the executable flag condition uses
    the equivalent squared form (proved equivalent in the z-score theorem).
  * numpy/pandas NaN semantics at zero variance (`0/0 → NaN`, `NaN > 2 → False`,
    hence no flag) coincide with Lean's `x / 0 = 0` convention for the records
    actually scanned, since a zero sample standard deviation forces every value
    of the series to equal its mean.
  * Fallible Python code (`json.loads`, `dict[...]`, `.strip` on a non-string,
    `float(...)`, `Prophet.fit`) is modelled with `Except PyError`; the error
    constructor names the Python exception class raised at that point.
  * I/O performed by the script (the ChatCompletion request, the two
    `write_html` calls) is recorded as an explicit effect trace.
-/

namespace OpEff

/-- Python exception kinds raised by the analysis pipeline. -/
inductive PyError where
  | jsonDecodeError
  | keyError
  | attributeError
  | typeError
  | valueError
deriving DecidableEq

/-- JSON values, as produced by `json.loads`. -/
inductive Json where
  | null
  | bool (b : Bool)
  | num (q : ℚ)
  | str (s : String)
  | arr (elems : List Json)
  | obj (fields : List (String × Json))

/-- One row of `self.df`: a daily per-department metrics record (§3 MetricRecord). -/
structure MetricRecord where
  date : Int
  department : String
  staff_hours : ℚ
  budget_spent : ℚ
  resource_utilization : ℚ
  productivity_score : ℚ
deriving DecidableEq

/-- The three metric columns scanned by `detect_anomalies` (source line 78). -/
inductive MetricName where
  | staff_hours
  | budget_spent
  | resource_utilization
deriving DecidableEq

/-- Column access `record[metric]`. -/
def metricValue : MetricName → MetricRecord → ℚ
  | .staff_hours, r => r.staff_hours
  | .budget_spent, r => r.budget_spent
  | .resource_utilization, r => r.resource_utilization

/-- The literal metric list `['staff_hours', 'budget_spent', 'resource_utilization']`. -/
def metricList : List MetricName :=
  [.staff_hours, .budget_spent, .resource_utilization]

/-- One row appended to `anomalies` (source lines 83–88). -/
structure AnomalyRecord where
  department : String
  date : Int
  metric : MetricName
  value : ℚ
deriving DecidableEq

/-- `self.df['department'].unique()`: departments in order of first
appearance (structural recursion: keep the head, drop its later
duplicates). -/
def uniqueList (l : List String) : List String :=
  l.foldr (fun a acc => a :: acc.filter (fun b => decide (b ≠ a))) []

/-- `dept_data = self.df[self.df['department'] == dept]` (source line 75). -/
def deptSlice (df : List MetricRecord) (d : String) : List MetricRecord :=
  df.filter (fun r => decide (r.department = d))

/-- pandas `.mean()`: sum divided by length (`0/0 = 0` stands in for NaN on
an empty column, which the pipeline never compares against a threshold). -/
def sampleMean (xs : List ℚ) : ℚ :=
  xs.sum / (xs.length : ℚ)

/-- pandas `.std()` squared: the sample variance with `ddof = 1`, i.e. the sum
of squared deviations divided by `n - 1`. The source takes the square root of
this quantity; the embedding keeps the variance so the flag test stays in `ℚ`
(the equivalence with the `|v - mean| / std > 2` form over `ℝ` is proved in the
z-score theorem). -/
def sampleVar (xs : List ℚ) : ℚ :=
  (xs.map (fun x => (x - sampleMean xs) ^ 2)).sum / ((xs.length : ℚ) - 1)

/-- The flag test of source line 79–80: `|v - mean| / std > 2`, encoded in `ℚ`
as `(v - mean)² > 4·var`.  For `var > 0` the two are equivalent; for
`var = 0` both flag nothing on the values actually scanned (every such value
equals the mean, and numpy's `0/0 → NaN`, `NaN > 2 → False` flags nothing). -/
def zFlag (xs : List ℚ) (v : ℚ) : Bool :=
  decide (4 * sampleVar xs < (v - sampleMean xs) ^ 2)

/-- The column `dept_data[metric]` as a list. -/
def metricSeries (df : List MetricRecord) (d : String) (m : MetricName) : List ℚ :=
  (deptSlice df d).map (metricValue m)

/-- `dept_data[dept_data['date'] == date][metric].iloc[0]` (source line 87):
the metric value of the first record of the department slice carrying the given
date.  `iloc[0]` raises `IndexError` on an empty selection; the embedding uses
`headD 0` and the lookup theorem proves the selection is never empty for dates
produced by the detector. -/
def anomalyValue (df : List MetricRecord) (d : String) (m : MetricName) (dt : Int) : ℚ :=
  (((deptSlice df d).filter (fun r => decide (r.date = dt))).map (metricValue m)).headD 0

/-- The inner loop body of `detect_anomalies` for one department and one
metric: flag the dates whose z-score exceeds 2, then build one anomaly row per
flagged date (source lines 78–88). -/
def anomaliesFor (df : List MetricRecord) (d : String) (m : MetricName) : List AnomalyRecord :=
  (((deptSlice df d).filter
      (fun r => zFlag (metricSeries df d m) (metricValue m r))).map (fun r => r.date)).map
    (fun dt => ⟨d, dt, m, anomalyValue df d m dt⟩)

/-- `detect_anomalies` (source lines 70–90): scan each department in order of
first appearance, each of the three metrics, and collect the anomaly rows. -/
def detect_anomalies (df : List MetricRecord) : List AnomalyRecord :=
  (uniqueList (df.map (fun r => r.department))).flatMap
    (fun d => metricList.flatMap (fun m => anomaliesFor df d m))

/-- §3 uniqueness invariant: one record per (department, date) pair. -/
def UniqueKeys (df : List MetricRecord) : Prop :=
  df.Pairwise (fun r s => r.department = s.department → r.date ≠ s.date)

instance (df : List MetricRecord) : Decidable (UniqueKeys df) := by
  unfold UniqueKeys
  infer_instance

/-! ### Forecasting (source lines 92–113) -/

/-- One row of the dataframe returned by `model.predict` : date, point
prediction `yhat` and the uncertainty interval `[yhat_lower, yhat_upper]`. -/
structure ForecastPoint where
  ds : Int
  yhat : ℚ
  yhat_lower : ℚ
  yhat_upper : ℚ
deriving DecidableEq

/-- The fitted model state: the `(ds, y)` history handed to `Prophet.fit`
(source lines 100–106). -/
structure ProphetModel where
  history : List (Int × ℚ)
deriving DecidableEq

/-- `(dept_data['date'], dept_data['resource_utilization'])`: the history
frame `df_prophet` built for one department (source lines 100–103). -/
def histSeries (df : List MetricRecord) (d : String) : List (Int × ℚ) :=
  (deptSlice df d).map (fun r => (r.date, r.resource_utilization))

/-- Modelled from the spec: `Prophet.fit` belongs to the external `prophet`
library, which is not part of this repository.  Per §4.2 a degenerate or
too-short series is a fitting failure (the library raises `ValueError` when the
history has fewer than 2 rows); otherwise fitting succeeds and the model
retains the history. -/
def prophetFit (h : List (Int × ℚ)) : Except PyError ProphetModel :=
  if h.length < 2 then .error .valueError else .ok ⟨h⟩

/-- Modelled from the spec: the fitted model's history dates in ascending
order (the external library sorts the history it retains). -/
def history_dates (m : ProphetModel) : List Int :=
  List.insertionSort (· ≤ ·) (m.history.map (fun p => p.1))

/-- Modelled from the spec: `model.make_future_dataframe(periods)` — the
historical dates followed by `periods` further consecutive calendar days
beyond the last observed date (§4.2: contiguous daily cadence, no gaps). -/
def make_future_dataframe (m : ProphetModel) (periods : ℕ) : List Int :=
  history_dates m ++
    (List.range periods).map (fun i : ℕ => (history_dates m).getLastD 0 + 1 + (i : Int))

/-- Modelled from the spec: `model.predict` of the external library.  §4.2
constrains only the shape of the output — one point per requested date, with
`lower_bound ≤ predicted_value ≤ upper_bound` — so the point predictor is
abstracted to the history mean with a symmetric nonnegative uncertainty band
(the mean absolute deviation). -/
def prophetPredict (m : ProphetModel) (dates : List Int) : List ForecastPoint :=
  let ys := m.history.map (fun q => q.2)
  let mu := sampleMean ys
  let sigma := (ys.map (fun y => |y - mu|)).sum / (ys.length : ℚ)
  dates.map (fun d => ⟨d, mu, mu - sigma, mu + sigma⟩)

/-- The department loop of `forecast_resources` (source lines 96–111): fit and
predict each department in turn.  There is no `try/except` in the source, so
the first exception anywhere aborts the whole call and every accumulated
forecast is lost — `Except` threads that propagation. -/
def forecastLoop (df : List MetricRecord) :
    List String → Except PyError (List (String × List ForecastPoint))
  | [] => .ok []
  | d :: ds =>
    match prophetFit (histSeries df d) with
    | .error e => .error e
    | .ok model =>
      match forecastLoop df ds with
      | .error e => .error e
      | .ok rest => .ok ((d, prophetPredict model (make_future_dataframe model 90)) :: rest)

/-- `forecast_resources` (source lines 92–113). -/
def forecast_resources (df : List MetricRecord) :
    Except PyError (List (String × List ForecastPoint)) :=
  forecastLoop df (uniqueList (df.map (fun r => r.department)))

/-- The forecast frame computed for one department when its fit succeeds:
`model.predict(model.make_future_dataframe(periods=90))` (source lines
105–109). -/
def deptForecast (df : List MetricRecord) (d : String) : List ForecastPoint :=
  prophetPredict ⟨histSeries df d⟩ (make_future_dataframe ⟨histSeries df d⟩ 90)

/-- `forecasts[dept]` on the result of `forecast_resources`: `none` when the
call aborted or the department is absent. -/
def lookupForecast (res : Except PyError (List (String × List ForecastPoint)))
    (d : String) : Option (List ForecastPoint) :=
  match res with
  | .error _ => none
  | .ok m => (m.find? (fun p => decide (p.1 = d))).map (fun p => p.2)

/-! ### The reasoning-service call (source lines 47–68) -/

/-- `analyze_with_gpt` (source lines 47–68).  The ChatCompletion response
content is given as `none` when `json.loads` cannot decode it and as the
decoded value otherwise.  The source applies no validation whatsoever to the
decoded object: it is returned as-is. -/
def analyze_with_gpt (responseContent : Option Json) : Except PyError Json :=
  match responseContent with
  | none => .error .jsonDecodeError
  | some j => .ok j

/-- Field access on a decoded JSON object.  Python's `json.loads` keeps the
last occurrence of a duplicated key, hence the search over the reversed field
list. -/
def jsonLookup (fields : List (String × Json)) (k : String) : Option Json :=
  (fields.reverse.find? (fun p => decide (p.1 = k))).map (fun p => p.2)

/-- `j[k]` for a decoded JSON value `j`. -/
def jsonGet (j : Json) (k : String) : Option Json :=
  match j with
  | .obj fields => jsonLookup fields k
  | _ => none

/-- Python `str.strip('%')`: remove every leading and trailing `'%'`. -/
def stripPercent (s : String) : String :=
  String.mk (((s.toList.dropWhile (fun c => c == '%')).reverse.dropWhile
    (fun c => c == '%')).reverse)

/-- Digit run to a natural number. -/
def natOfDigits (l : List Char) : ℕ :=
  l.foldl (fun n c => 10 * n + (c.toNat - ('0').toNat)) 0

/-- Python `float(...)` on the decimal literals that reach it here: optional
sign, integer part, optional fractional part.  (`float` also accepts
whitespace, exponents and `inf`/`nan`, which never arise from percent
strings; on anything unparseable it raises `ValueError`, modelled by
`none`.) -/
def parseDecimal? (l : List Char) : Option ℚ :=
  let core : List Char → Option ℚ := fun cs =>
    let intPart := cs.takeWhile Char.isDigit
    let rest := cs.dropWhile Char.isDigit
    match rest with
    | [] => if intPart.isEmpty then none else some (natOfDigits intPart : ℚ)
    | '.' :: frac =>
      if frac.all Char.isDigit && !(intPart.isEmpty && frac.isEmpty) then
        some ((natOfDigits intPart : ℚ) + (natOfDigits frac : ℚ) / 10 ^ frac.length)
      else none
    | _ => none
  match l with
  | '-' :: cs => (core cs).map (fun q => -q)
  | '+' :: cs => core cs
  | cs => core cs

/-- `float(s)` for a string. -/
def parseFloat? (s : String) : Option ℚ :=
  parseDecimal? s.toList

/-- `float(ai_analysis['potential_savings'].strip('%'))` (source line 144),
with each Python failure mode made explicit: subscripting a non-dict raises
`TypeError`, a missing key raises `KeyError`, `.strip` on a non-string raises
`AttributeError`, and an unparseable number raises `ValueError`.  No range
check of any kind is performed. -/
def getSavings (j : Json) : Except PyError ℚ :=
  match j with
  | .obj fields =>
    match jsonLookup fields "potential_savings" with
    | none => .error .keyError
    | some (.str s) =>
      match parseFloat? (stripPercent s) with
      | some q => .ok q
      | none => .error .valueError
    | some _ => .error .attributeError
  | _ => .error .typeError

/-! ### The report (source lines 115–152) -/

/-- `self.df['resource_utilization'].mean()` (source line 119). -/
def avg_utilization (df : List MetricRecord) : ℚ :=
  sampleMean (df.map (fun r => r.resource_utilization))

/-- `self.df['budget_spent'].sum()` (source line 120). -/
def total_budget (df : List MetricRecord) : ℚ :=
  (df.map (fun r => r.budget_spent)).sum

/-- Pearson correlation, `self.df[a].corr(self.df[b])` (source line 121). -/
noncomputable def pearson (xs ys : List ℚ) : ℝ :=
  let mx := sampleMean xs
  let my := sampleMean ys
  let cov := ((xs.zip ys).map (fun p => (p.1 - mx) * (p.2 - my))).sum
  ((cov : ℚ) : ℝ) /
    (Real.sqrt (((xs.map (fun x => (x - mx) ^ 2)).sum : ℚ) : ℝ) *
      Real.sqrt (((ys.map (fun y => (y - my) ^ 2)).sum : ℚ) : ℝ))

/-- `self.df.groupby('department').agg(...)` (source lines 122–126): per
department, the mean utilization, summed budget and mean productivity. -/
def department_metrics (df : List MetricRecord) : List (String × ℚ × ℚ × ℚ) :=
  (uniqueList (df.map (fun r => r.department))).map (fun d =>
    (d, sampleMean ((deptSlice df d).map (fun r => r.resource_utilization)),
        ((deptSlice df d).map (fun r => r.budget_spent)).sum,
        sampleMean ((deptSlice df d).map (fun r => r.productivity_score))))

/-- The `metrics_summary` dict (source lines 118–127). -/
structure MetricsSummary where
  avg_utilization : ℚ
  total_budget : ℚ
  productivity_correlation : ℝ
  department_metrics : List (String × ℚ × ℚ × ℚ)

/-- Building `metrics_summary` from the table. -/
noncomputable def metricsSummary (df : List MetricRecord) : MetricsSummary where
  avg_utilization := avg_utilization df
  total_budget := total_budget df
  productivity_correlation :=
    pearson (df.map (fun r => r.resource_utilization))
      (df.map (fun r => r.productivity_score))
  department_metrics := department_metrics df

/-- The dict returned by `generate_insights_report` (source lines 146–152). -/
structure Report where
  metrics_summary : MetricsSummary
  ai_recommendations : Json
  anomalies : ℕ
  potential_annual_savings : ℚ
  analysis_date : Int

/-- Observable side effects of the report call: the ChatCompletion request
issued by `analyze_with_gpt` and the two `write_html` file writes. -/
inductive Effect where
  | apiCall
  | write_html (filename : String)
deriving DecidableEq

/-- `generate_insights_report` (source lines 115–152).  The service response
content is a parameter (`none` = undecodable text); `now` is the wall-clock
date read by `datetime.now()` at line 151.  The function returns the effect
trace together with the result: a `json.loads` failure aborts before the
charts are written, a savings-extraction failure aborts after both files are
already written, and otherwise the report dict is returned.  The savings
formula is the literal
`(100 - avg_utilization) * total_budget * float(p.strip('%')) / 10000`. -/
noncomputable def generate_insights_report (df : List MetricRecord)
    (responseContent : Option Json) (now : Int) :
    List Effect × Except PyError Report :=
  match analyze_with_gpt responseContent with
  | .error e => ([.apiCall], .error e)
  | .ok ai =>
    match getSavings ai with
    | .error e =>
      ([.apiCall, .write_html "utilization_by_dept.html",
        .write_html "budget_trend.html"], .error e)
    | .ok p =>
      ([.apiCall, .write_html "utilization_by_dept.html",
        .write_html "budget_trend.html"],
       .ok { metrics_summary := metricsSummary df
             ai_recommendations := ai
             anomalies := (detect_anomalies df).length
             potential_annual_savings :=
               (100 - avg_utilization df) * total_budget df * p / 10000
             analysis_date := now })

/-- The `metrics_summary` entry of a report result, when the call succeeded. -/
def summaryOf : Except PyError Report → Option MetricsSummary
  | .ok r => some r.metrics_summary
  | .error _ => none

/-- The `anomalies` entry of a report result, when the call succeeded. -/
def anomalyCountOf : Except PyError Report → Option ℕ
  | .ok r => some r.anomalies
  | .error _ => none

/-- The `potential_annual_savings` entry of a report result. -/
def savingsOf : Except PyError Report → Option ℚ
  | .ok r => some r.potential_annual_savings
  | .error _ => none

/-! ### Concrete fixtures used to instantiate the theorems -/

/-- A one-department table with a single injected outlier: utilization 10 on
day 0 against a constant 50 elsewhere; staff hours are constant (zero
variance). -/
def dfOutlier : List MetricRecord :=
  [⟨0, "IT", 80, 100, 10, 85⟩,
   ⟨1, "IT", 80, 100, 50, 85⟩,
   ⟨2, "IT", 80, 100, 50, 85⟩,
   ⟨3, "IT", 80, 100, 50, 85⟩,
   ⟨4, "IT", 80, 100, 50, 85⟩]

/-- A minimal two-day, one-department table: average utilization 50, total
budget 200. -/
def dfPair : List MetricRecord :=
  [⟨0, "IT", 40, 100, 50, 80⟩,
   ⟨1, "IT", 40, 100, 50, 80⟩]

/-- Department `A` has a single record (a too-short series for fitting);
department `B` has two. -/
def dfTwoDept : List MetricRecord :=
  [⟨0, "A", 80, 100, 75, 85⟩,
   ⟨0, "B", 80, 100, 75, 85⟩,
   ⟨1, "B", 80, 100, 70, 85⟩]

/-- A well-formed service response with savings `"10%"`. -/
def jRec10 : Json :=
  .obj [("identified_inefficiencies", .arr [.str "overstaffing"]),
        ("optimization_suggestions", .arr [.str "rebalance shifts"]),
        ("potential_savings", .str "10%"),
        ("priority_actions", .arr [.str "a", .str "b", .str "c"])]

/-- A malformed service response: the `priority_actions` field is missing. -/
def jMissing : Json :=
  .obj [("identified_inefficiencies", .arr [.str "overstaffing"]),
        ("optimization_suggestions", .arr [.str "rebalance shifts"]),
        ("potential_savings", .str "12%")]

/-- A service response whose savings value `"150%"` lies outside `[0, 100]`. -/
def jRec150 : Json :=
  .obj [("identified_inefficiencies", .arr [.str "overstaffing"]),
        ("optimization_suggestions", .arr [.str "rebalance shifts"]),
        ("potential_savings", .str "150%"),
        ("priority_actions", .arr [.str "a", .str "b", .str "c"])]

/-! ## Supporting lemmas -/

theorem uniqueList_cons (a : String) (t : List String) :
    uniqueList (a :: t) = a :: (uniqueList t).filter (fun b => decide (b ≠ a)) :=
  rfl

theorem mem_uniqueList {x : String} : ∀ {l : List String}, x ∈ uniqueList l ↔ x ∈ l := by
  intro l
  induction l with
  | nil => simp [uniqueList]
  | cons a t ih =>
    rw [uniqueList_cons]
    simp only [List.mem_cons, List.mem_filter, decide_eq_true_eq, ih]
    constructor
    · rintro (rfl | ⟨hx, _⟩)
      · exact Or.inl rfl
      · exact Or.inr hx
    · rintro (rfl | hx)
      · exact Or.inl rfl
      · by_cases hxa : x = a
        · exact Or.inl hxa
        · exact Or.inr ⟨hx, hxa⟩

theorem mem_deptSlice {df : List MetricRecord} {d : String} {r : MetricRecord} :
    r ∈ deptSlice df d ↔ r ∈ df ∧ r.department = d := by
  unfold deptSlice
  rw [List.mem_filter]
  simp

theorem mem_anomaliesFor {df : List MetricRecord} {d : String} {m : MetricName}
    {a : AnomalyRecord} :
    a ∈ anomaliesFor df d m ↔
      ∃ r ∈ deptSlice df d,
        zFlag (metricSeries df d m) (metricValue m r) = true ∧
          a = ⟨d, r.date, m, anomalyValue df d m r.date⟩ := by
  unfold anomaliesFor
  simp only [List.mem_map, List.mem_filter]
  constructor
  · rintro ⟨dt, ⟨r, ⟨⟨hr, hfl⟩, rfl⟩⟩, rfl⟩
    exact ⟨r, hr, hfl, rfl⟩
  · rintro ⟨r, hr, hfl, rfl⟩
    exact ⟨r.date, ⟨r, ⟨⟨hr, hfl⟩, rfl⟩⟩, rfl⟩

theorem mem_detect {df : List MetricRecord} {a : AnomalyRecord} :
    a ∈ detect_anomalies df ↔
      ∃ d ∈ uniqueList (df.map (fun r => r.department)),
        ∃ m ∈ metricList, a ∈ anomaliesFor df d m := by
  unfold detect_anomalies
  simp [List.mem_flatMap]

theorem sampleVar_nonneg (xs : List ℚ) : 0 ≤ sampleVar xs := by
  unfold sampleVar
  rcases xs with _ | ⟨a, _ | ⟨b, t⟩⟩
  · simp
  · norm_num
  · apply div_nonneg
    · apply List.sum_nonneg
      intro x hx
      simp only [List.mem_map] at hx
      obtain ⟨y, _, rfl⟩ := hx
      positivity
    · have h2 : (2 : ℚ) ≤ ((a :: b :: t).length : ℚ) := by
        simp only [List.length_cons]
        push_cast
        linarith [Nat.cast_nonneg (α := ℚ) t.length]
      linarith

theorem list_all_zero_of_nonneg_sum_zero {l : List ℚ} (h0 : ∀ x ∈ l, 0 ≤ x)
    (hs : l.sum = 0) : ∀ x ∈ l, x = 0 := by
  induction l with
  | nil => simp
  | cons a t ih =>
    have hta : 0 ≤ a := h0 a (List.mem_cons_self a t)
    have htt : 0 ≤ t.sum := List.sum_nonneg (fun x hx => h0 x (List.mem_cons_of_mem a hx))
    have hsum : a + t.sum = 0 := by simpa using hs
    have ha : a = 0 := by linarith
    have ht : t.sum = 0 := by linarith
    intro x hx
    rcases List.mem_cons.mp hx with rfl | hx
    · exact ha
    · exact ih (fun y hy => h0 y (List.mem_cons_of_mem a hy)) ht x hx

theorem eq_mean_of_sampleVar_eq_zero {xs : List ℚ} (h : sampleVar xs = 0)
    {v : ℚ} (hv : v ∈ xs) : v = sampleMean xs := by
  rcases xs with _ | ⟨a, _ | ⟨b, t⟩⟩
  · cases hv
  · rcases List.mem_singleton.mp hv with rfl
    simp [sampleMean]
  · unfold sampleVar at h
    have hlen : ((2 : ℚ)) ≤ (((a :: b :: t).length : ℕ) : ℚ) := by
      simp only [List.length_cons]
      push_cast
      linarith [Nat.cast_nonneg (α := ℚ) t.length]
    have hden : (((a :: b :: t).length : ℕ) : ℚ) - 1 ≠ 0 := by linarith
    have hsum : ((a :: b :: t).map (fun x => (x - sampleMean (a :: b :: t)) ^ 2)).sum = 0 := by
      rcases div_eq_zero_iff.mp h with h' | h'
      · exact h'
      · exact absurd h' hden
    have hall := list_all_zero_of_nonneg_sum_zero
      (l := (a :: b :: t).map (fun x => (x - sampleMean (a :: b :: t)) ^ 2))
      (by
        intro x hx
        simp only [List.mem_map] at hx
        obtain ⟨y, _, rfl⟩ := hx
        positivity) hsum
    have hv2 : (v - sampleMean (a :: b :: t)) ^ 2 = 0 :=
      hall _ (List.mem_map.mpr ⟨v, hv, rfl⟩)
    have := sq_eq_zero_iff.mp hv2
    linarith [this]

theorem zFlag_iff_real (xs : List ℚ) (v : ℚ) (h : sampleVar xs ≠ 0) :
    zFlag xs v = true ↔
      2 < |((v : ℚ) : ℝ) - ((sampleMean xs : ℚ) : ℝ)| /
        Real.sqrt ((sampleVar xs : ℚ) : ℝ) := by
  have hV0 : (0 : ℚ) ≤ sampleVar xs := sampleVar_nonneg xs
  have hVpos : (0 : ℚ) < sampleVar xs := lt_of_le_of_ne hV0 (Ne.symm h)
  have hVR : (0 : ℝ) < ((sampleVar xs : ℚ) : ℝ) := by exact_mod_cast hVpos
  have hs : 0 < Real.sqrt ((sampleVar xs : ℚ) : ℝ) := Real.sqrt_pos.mpr hVR
  have hsq : Real.sqrt ((sampleVar xs : ℚ) : ℝ) ^ 2 = ((sampleVar xs : ℚ) : ℝ) :=
    Real.sq_sqrt hVR.le
  rw [zFlag, decide_eq_true_eq, lt_div_iff₀ hs]
  have hcast : (4 * sampleVar xs < (v - sampleMean xs) ^ 2) ↔
      (4 * ((sampleVar xs : ℚ) : ℝ) < (((v : ℚ) : ℝ) - ((sampleMean xs : ℚ) : ℝ)) ^ 2) := by
    constructor
    · intro hlt
      exact_mod_cast hlt
    · intro hlt
      exact_mod_cast hlt
  rw [hcast]
  set x : ℝ := ((v : ℚ) : ℝ) - ((sampleMean xs : ℚ) : ℝ) with hx
  set s : ℝ := Real.sqrt ((sampleVar xs : ℚ) : ℝ) with hss
  constructor
  · intro h4
    by_contra hn
    push_neg at hn
    have habs : 0 ≤ |x| := abs_nonneg x
    nlinarith [sq_abs x]
  · intro h2s
    nlinarith [sq_abs x, abs_nonneg x]

theorem eq_of_uniqueKeys {df : List MetricRecord} (hu : UniqueKeys df)
    {r s : MetricRecord} (hr : r ∈ df) (hs : s ∈ df)
    (hd : r.department = s.department) (hdt : r.date = s.date) : r = s := by
  by_contra hne
  have hsymm : Symmetric
      (fun r s : MetricRecord => r.department = s.department → r.date ≠ s.date) := by
    intro a b hab hba hdate
    exact hab hba.symm hdate.symm
  exact List.Pairwise.forall hsymm hu hr hs hne hd hdt

theorem anomalyValue_eq {df : List MetricRecord} {d : String} {r : MetricRecord}
    (hu : UniqueKeys df) (hr : r ∈ deptSlice df d) (m : MetricName) :
    anomalyValue df d m r.date = metricValue m r := by
  unfold anomalyValue
  have hrf : r ∈ (deptSlice df d).filter (fun s => decide (s.date = r.date)) := by
    rw [List.mem_filter]
    exact ⟨hr, by simp⟩
  cases hfl : (deptSlice df d).filter (fun s => decide (s.date = r.date)) with
  | nil =>
    rw [hfl] at hrf
    cases hrf
  | cons x xs =>
    have hx : x ∈ (deptSlice df d).filter (fun s => decide (s.date = r.date)) := by
      rw [hfl]
      exact List.mem_cons_self x xs
    have hx' := List.mem_filter.mp hx
    have hxdate : x.date = r.date := by simpa using hx'.2
    have hrdf := mem_deptSlice.mp hr
    have hxdf := mem_deptSlice.mp hx'.1
    have hxr : x = r :=
      eq_of_uniqueKeys hu hxdf.1 hrdf.1 (by rw [hxdf.2, hrdf.2]) hxdate
    simp [hxr]

/-! ## Claim theorems: anomaly detection -/

/-- Claim C1: for every table and every department whose metric series
(staff_hours, budget_spent, or resource_utilization) has non-zero sample
standard deviation, `detect_anomalies` flags exactly those records whose
value `v` satisfies `|v - mean| / std > 2.0` for that department's metric,
and no others.  (The table satisfies the §3 one-record-per-(department, date)
invariant; a non-zero sample standard deviation is a non-zero sample
variance.) -/
theorem anomalies_flag_iff_zscore (df : List MetricRecord) (d : String) (m : MetricName)
    (hu : UniqueKeys df) (hvar : sampleVar (metricSeries df d m) ≠ 0) :
    (∀ r ∈ deptSlice df d,
        ((⟨d, r.date, m, metricValue m r⟩ : AnomalyRecord) ∈ detect_anomalies df ↔
          2 < |((metricValue m r : ℚ) : ℝ) - ((sampleMean (metricSeries df d m) : ℚ) : ℝ)| /
            Real.sqrt ((sampleVar (metricSeries df d m) : ℚ) : ℝ))) ∧
    (∀ a ∈ detect_anomalies df, a.department = d → a.metric = m →
        ∃ r ∈ deptSlice df d,
          a = ⟨d, r.date, m, metricValue m r⟩ ∧
            2 < |((metricValue m r : ℚ) : ℝ) - ((sampleMean (metricSeries df d m) : ℚ) : ℝ)| /
              Real.sqrt ((sampleVar (metricSeries df d m) : ℚ) : ℝ)) := by
  constructor
  · intro r hr
    rw [← zFlag_iff_real _ _ hvar]
    constructor
    · intro hmem
      obtain ⟨d', hd', m', hm', haf⟩ := mem_detect.mp hmem
      obtain ⟨r', hr', hflag, hae⟩ := mem_anomaliesFor.mp haf
      obtain ⟨hdd, hdt, hmm, hvv⟩ := AnomalyRecord.mk.inj hae
      subst hdd
      subst hmm
      have hrr : r' = r := by
        apply eq_of_uniqueKeys hu (mem_deptSlice.mp hr').1 (mem_deptSlice.mp hr).1
        · rw [(mem_deptSlice.mp hr').2, (mem_deptSlice.mp hr).2]
        · exact hdt.symm
      rw [← hrr]
      exact hflag
    · intro hflag
      apply mem_detect.mpr
      refine ⟨d, ?_, m, ?_, ?_⟩
      · rw [mem_uniqueList]
        exact List.mem_map.mpr ⟨r, (mem_deptSlice.mp hr).1, (mem_deptSlice.mp hr).2⟩
      · cases m <;> simp [metricList]
      · apply mem_anomaliesFor.mpr
        refine ⟨r, hr, hflag, ?_⟩
        rw [anomalyValue_eq hu hr]
  · intro a ha had ham
    obtain ⟨d', hd', m', hm', haf⟩ := mem_detect.mp ha
    obtain ⟨r', hr', hflag, hae⟩ := mem_anomaliesFor.mp haf
    subst hae
    have had' : d' = d := had
    have ham' : m' = m := ham
    subst had'
    subst ham'
    refine ⟨r', hr', ?_, ?_⟩
    · rw [anomalyValue_eq hu hr']
    · rw [← zFlag_iff_real _ _ hvar]
      exact hflag

/-- Witness for C1 at the outlier fixture: the utilization series of `IT`
has non-zero sample variance and the characterization holds. -/
theorem anomalies_flag_iff_zscore_witness :
    (UniqueKeys dfOutlier ∧
      sampleVar (metricSeries dfOutlier "IT" .resource_utilization) ≠ 0) ∧
    ((∀ r ∈ deptSlice dfOutlier "IT",
        ((⟨"IT", r.date, .resource_utilization,
            metricValue .resource_utilization r⟩ : AnomalyRecord) ∈
              detect_anomalies dfOutlier ↔
          2 < |((metricValue .resource_utilization r : ℚ) : ℝ) -
                ((sampleMean (metricSeries dfOutlier "IT" .resource_utilization) : ℚ) : ℝ)| /
            Real.sqrt ((sampleVar (metricSeries dfOutlier "IT" .resource_utilization) : ℚ) : ℝ))) ∧
      (∀ a ∈ detect_anomalies dfOutlier, a.department = "IT" →
          a.metric = .resource_utilization →
          ∃ r ∈ deptSlice dfOutlier "IT",
            a = ⟨"IT", r.date, .resource_utilization, metricValue .resource_utilization r⟩ ∧
              2 < |((metricValue .resource_utilization r : ℚ) : ℝ) -
                    ((sampleMean (metricSeries dfOutlier "IT" .resource_utilization) : ℚ) : ℝ)| /
                Real.sqrt
                  ((sampleVar (metricSeries dfOutlier "IT" .resource_utilization) : ℚ) : ℝ))) :=
  ⟨⟨by decide, by
      have h : metricSeries dfOutlier "IT" .resource_utilization = [10, 50, 50, 50, 50] := rfl
      rw [h]
      norm_num [sampleVar, sampleMean]⟩,
    anomalies_flag_iff_zscore dfOutlier "IT" .resource_utilization (by decide) (by
      have h : metricSeries dfOutlier "IT" .resource_utilization = [10, 50, 50, 50, 50] := rfl
      rw [h]
      norm_num [sampleVar, sampleMean])⟩

/-- Claim C3: for every table and department whose metric series is constant
(sample standard deviation zero), `detect_anomalies` flags no record for that
department/metric — the degenerate division cannot produce a flag. -/
theorem zero_variance_no_flags (df : List MetricRecord) (d : String) (m : MetricName)
    (h : sampleVar (metricSeries df d m) = 0) :
    ∀ a ∈ detect_anomalies df, ¬(a.department = d ∧ a.metric = m) := by
  rintro a ha ⟨had, ham⟩
  obtain ⟨d', hd', m', hm', haf⟩ := mem_detect.mp ha
  obtain ⟨r', hr', hflag, hae⟩ := mem_anomaliesFor.mp haf
  subst hae
  have had' : d' = d := had
  have ham' : m' = m := ham
  rw [← had', ← ham'] at h
  have hvmem : metricValue m' r' ∈ metricSeries df d' m' :=
    List.mem_map.mpr ⟨r', hr', rfl⟩
  have hvm := eq_mean_of_sampleVar_eq_zero h hvmem
  rw [zFlag, decide_eq_true_eq, h, hvm] at hflag
  simp at hflag

/-- Witness for C3: the constant staff-hours series of `IT` in the outlier
fixture has zero sample variance and produces no staff-hours anomaly. -/
theorem zero_variance_no_flags_witness :
    sampleVar (metricSeries dfOutlier "IT" .staff_hours) = 0 ∧
      ∀ a ∈ detect_anomalies dfOutlier,
        ¬(a.department = "IT" ∧ a.metric = .staff_hours) :=
  ⟨by
      have h : metricSeries dfOutlier "IT" .staff_hours = [80, 80, 80, 80, 80] := rfl
      rw [h]
      norm_num [sampleVar, sampleMean],
    zero_variance_no_flags dfOutlier "IT" .staff_hours (by
      have h : metricSeries dfOutlier "IT" .staff_hours = [80, 80, 80, 80, 80] := rfl
      rw [h]
      norm_num [sampleVar, sampleMean])⟩

/-- Claim C10: in a table where each (department, date) pair appears at most
once, every anomaly record carries an observed value equal to the table's
value for that department, date and metric, and the `iloc[0]` lookup inside
the department slice never selects from an empty match set. -/
theorem anomaly_value_lookup (df : List MetricRecord) (hu : UniqueKeys df) :
    ∀ a ∈ detect_anomalies df,
      ((deptSlice df a.department).filter (fun r => decide (r.date = a.date)) ≠ []) ∧
      (∃ r ∈ df, r.department = a.department ∧ r.date = a.date ∧
        metricValue a.metric r = a.value) ∧
      (∀ r ∈ df, r.department = a.department → r.date = a.date →
        metricValue a.metric r = a.value) := by
  intro a ha
  obtain ⟨d', hd', m', hm', haf⟩ := mem_detect.mp ha
  obtain ⟨r', hr', hflag, hae⟩ := mem_anomaliesFor.mp haf
  subst hae
  have hval := anomalyValue_eq hu hr' m'
  have hr'df := mem_deptSlice.mp hr'
  refine ⟨?_, ⟨r', hr'df.1, hr'df.2, rfl, hval.symm⟩, ?_⟩
  · intro hnil
    have hrf : r' ∈ (deptSlice df d').filter (fun s => decide (s.date = r'.date)) := by
      rw [List.mem_filter]
      exact ⟨hr', by simp⟩
    rw [hnil] at hrf
    cases hrf
  · intro r hr hrd hrdt
    have hrr : r = r' := by
      apply eq_of_uniqueKeys hu hr hr'df.1
      · rw [hrd, hr'df.2]
      · rw [hrdt]
    rw [hrr]
    exact hval.symm

/-- Witness for C10 at the outlier fixture. -/
theorem anomaly_value_lookup_witness :
    UniqueKeys dfOutlier ∧
      ∀ a ∈ detect_anomalies dfOutlier,
        ((deptSlice dfOutlier a.department).filter
            (fun r => decide (r.date = a.date)) ≠ []) ∧
        (∃ r ∈ dfOutlier, r.department = a.department ∧ r.date = a.date ∧
          metricValue a.metric r = a.value) ∧
        (∀ r ∈ dfOutlier, r.department = a.department → r.date = a.date →
          metricValue a.metric r = a.value) :=
  ⟨by decide, anomaly_value_lookup dfOutlier (by decide)⟩

/-! ## Claim theorems: report construction and the service boundary -/

/-- Claim C2: for every fixed average utilization, total budget and
potential-savings percentage `p` (the numeric value after stripping `'%'`),
the report's `potential_annual_savings` equals
`(100 - avg_utilization) * total_budget * (p / 100) / 100` — the source's
division by 10000 — and the same inputs always yield the same output
regardless of the wall-clock date. -/
theorem potential_savings_formula (df : List MetricRecord)
    (content : Option Json) (now now' : Int) (j : Json) (p : ℚ)
    (h1 : analyze_with_gpt content = .ok j) (h2 : getSavings j = .ok p) :
    savingsOf (generate_insights_report df content now).2 =
      some ((100 - avg_utilization df) * total_budget df * (p / 100) / 100) ∧
    savingsOf (generate_insights_report df content now).2 =
      savingsOf (generate_insights_report df content now').2 := by
  have hform : (100 - avg_utilization df) * total_budget df * p / 10000 =
      (100 - avg_utilization df) * total_budget df * (p / 100) / 100 := by
    ring
  constructor
  · simp only [generate_insights_report, h1, h2, savingsOf, hform]
  · simp only [generate_insights_report, h1, h2, savingsOf]

/-- Witness for C2 at the two-day fixture with a `"10%"` response. -/
theorem potential_savings_formula_witness :
    (analyze_with_gpt (some jRec10) = .ok jRec10 ∧ getSavings jRec10 = .ok 10) ∧
    (savingsOf (generate_insights_report dfPair (some jRec10) 0).2 =
        some ((100 - avg_utilization dfPair) * total_budget dfPair * ((10 : ℚ) / 100) / 100) ∧
      savingsOf (generate_insights_report dfPair (some jRec10) 0).2 =
        savingsOf (generate_insights_report dfPair (some jRec10) 1).2) :=
  ⟨⟨rfl, rfl⟩, potential_savings_formula dfPair (some jRec10) 0 1 jRec10 10 rfl rfl⟩

/-- Counterexample to claim C5: a decoded payload missing `priority_actions`
is returned by `analyze_with_gpt` as a success, not rejected — the source
performs no schema validation and defines no `SynthesisSchemaError`. -/
theorem gpt_no_schema_validation_cex :
    analyze_with_gpt (some jMissing) = .ok jMissing ∧
      jsonGet jMissing "priority_actions" = none :=
  ⟨rfl, rfl⟩

/-- Claim C5 as amended: `analyze_with_gpt` returns every successfully decoded
JSON payload unchanged, however malformed; only undecodable text raises (the
`json.loads` decode error).  No schema validation exists. -/
theorem gpt_returns_payload_unvalidated :
    (∀ j : Json, analyze_with_gpt (some j) = .ok j) ∧
      analyze_with_gpt none = .error .jsonDecodeError :=
  ⟨fun _ => rfl, rfl⟩

/-- Counterexample to claim C6: the out-of-range savings value `"150%"` parses
to 150 and flows into the savings computation — the report call succeeds with
`potential_annual_savings = 150` instead of raising a synthesis error. -/
theorem savings_range_unchecked_cex :
    getSavings jRec150 = .ok 150 ∧
      savingsOf (generate_insights_report dfPair (some jRec150) 0).2 = some 150 := by
  have h1 : analyze_with_gpt (some jRec150) = .ok jRec150 := rfl
  have h2 : getSavings jRec150 = .ok 150 := rfl
  refine ⟨h2, ?_⟩
  have ha : avg_utilization dfPair = 50 := by
    norm_num [avg_utilization, sampleMean, dfPair]
  have hb : total_budget dfPair = 200 := by
    norm_num [total_budget, dfPair]
  simp only [generate_insights_report, h1, h2, savingsOf, ha, hb]
  norm_num

/-- Claim C6 as amended: the savings field is parsed as a float after
stripping `'%'` (non-string values and unparseable text raise), but no range
validation occurs — every parsed value `p`, inside `[0, 100]` or not, is
passed onward into the savings computation. -/
theorem savings_no_range_check (df : List MetricRecord) (content : Option Json)
    (now : Int) (j : Json) (p : ℚ)
    (h1 : analyze_with_gpt content = .ok j) (h2 : getSavings j = .ok p) :
    savingsOf (generate_insights_report df content now).2 =
      some ((100 - avg_utilization df) * total_budget df * p / 10000) := by
  simp only [generate_insights_report, h1, h2, savingsOf]

/-- Witness for the amended C6 at the out-of-range `"150%"` fixture. -/
theorem savings_no_range_check_witness :
    (analyze_with_gpt (some jRec150) = .ok jRec150 ∧ getSavings jRec150 = .ok 150) ∧
      savingsOf (generate_insights_report dfPair (some jRec150) 0).2 =
        some ((100 - avg_utilization dfPair) * total_budget dfPair * 150 / 10000) :=
  ⟨⟨rfl, rfl⟩, savings_no_range_check dfPair (some jRec150) 0 jRec150 150 rfl rfl⟩

/-- Claim C8: for a fixed table and a fixed (mocked) service response, two
runs of report construction — whatever the wall-clock dates — produce
identical `metrics_summary` (average utilization, total budget, correlation,
per-department aggregates) and identical anomaly counts. -/
theorem report_deterministic (df : List MetricRecord) (content : Option Json)
    (now now' : Int) :
    summaryOf (generate_insights_report df content now).2 =
      summaryOf (generate_insights_report df content now').2 ∧
    anomalyCountOf (generate_insights_report df content now).2 =
      anomalyCountOf (generate_insights_report df content now').2 := by
  cases hc : analyze_with_gpt content with
  | error e => simp [generate_insights_report, hc]
  | ok j =>
    cases hg : getSavings j with
    | error e => simp [generate_insights_report, hc, hg]
    | ok p => simp [generate_insights_report, hc, hg, summaryOf, anomalyCountOf]

/-- Counterexample to claim C9: report construction is not free of I/O — on a
concrete table and response its effect trace is nonempty and contains the two
`write_html` file writes. -/
theorem report_writes_files_cex :
    (generate_insights_report dfPair (some jRec10) 0).1 ≠ [] ∧
      Effect.write_html "utilization_by_dept.html" ∈
        (generate_insights_report dfPair (some jRec10) 0).1 ∧
      Effect.write_html "budget_trend.html" ∈
        (generate_insights_report dfPair (some jRec10) 0).1 := by
  have h1 : analyze_with_gpt (some jRec10) = .ok jRec10 := rfl
  have h2 : getSavings jRec10 = .ok 10 := rfl
  refine ⟨?_, ?_, ?_⟩ <;> simp [generate_insights_report, h1, h2]

/-- Claim C9 as amended: once the response is decoded, report construction
always performs exactly the service request and the two HTML chart writes
(`utilization_by_dept.html`, `budget_trend.html`); apart from this fixed
effect trace the report value is a pure aggregation of its inputs. -/
theorem report_effect_trace (df : List MetricRecord) (content : Option Json)
    (now : Int) (j : Json) (h : analyze_with_gpt content = .ok j) :
    (generate_insights_report df content now).1 =
      [Effect.apiCall, Effect.write_html "utilization_by_dept.html",
        Effect.write_html "budget_trend.html"] := by
  cases hg : getSavings j <;> simp [generate_insights_report, h, hg]

/-- Witness for the amended C9. -/
theorem report_effect_trace_witness :
    analyze_with_gpt (some jRec10) = .ok jRec10 ∧
      (generate_insights_report dfPair (some jRec10) 0).1 =
        [Effect.apiCall, Effect.write_html "utilization_by_dept.html",
          Effect.write_html "budget_trend.html"] :=
  ⟨rfl, report_effect_trace dfPair (some jRec10) 0 jRec10 rfl⟩

/-! ## Claim theorems: forecasting -/

theorem forecastLoop_ok (df : List MetricRecord) :
    ∀ ds : List String, (∀ d ∈ ds, 2 ≤ (histSeries df d).length) →
      forecastLoop df ds = .ok (ds.map (fun d => (d, deptForecast df d))) := by
  intro ds
  induction ds with
  | nil => intro _; rfl
  | cons a t ih =>
    intro h
    have ha2 : ¬(histSeries df a).length < 2 :=
      not_lt.mpr (h a (List.mem_cons_self a t))
    have ht := ih (fun x hx => h x (List.mem_cons_of_mem a hx))
    simp [forecastLoop, prophetFit, ha2, ht, deptForecast]

theorem forecastLoop_error (df : List MetricRecord) :
    ∀ ds : List String, (∃ d ∈ ds, (histSeries df d).length < 2) →
      forecastLoop df ds = .error .valueError := by
  intro ds
  induction ds with
  | nil => rintro ⟨d, hd, _⟩; cases hd
  | cons a t ih =>
    rintro ⟨d, hd, hlen⟩
    by_cases ha : (histSeries df a).length < 2
    · simp [forecastLoop, prophetFit, ha]
    · rcases List.mem_cons.mp hd with rfl | hdt
      · exact absurd hlen ha
      · have ht := ih ⟨d, hdt, hlen⟩
        simp [forecastLoop, prophetFit, ha, ht]

theorem find?_map_self {β : Type} (F : String → β) :
    ∀ (ds : List String) (d : String), d ∈ ds →
      (ds.map (fun x => (x, F x))).find? (fun p => decide (p.1 = d)) = some (d, F d) := by
  intro ds
  induction ds with
  | nil => intro d h; cases h
  | cons a t ih =>
    intro d h
    by_cases had : a = d
    · subst had
      rw [List.map_cons, List.find?_cons_of_pos _ (by simp)]
    · rcases List.mem_cons.mp h with rfl | ht
      · exact absurd rfl had
      · rw [List.map_cons, List.find?_cons_of_neg _ (by simp [had])]
        exact ih d ht

theorem length_make_future (m : ProphetModel) (periods : ℕ) :
    (make_future_dataframe m periods).length = m.history.length + periods := by
  unfold make_future_dataframe history_dates
  simp [List.length_insertionSort]

theorem chain'_make_future (m : ProphetModel) (periods : ℕ) :
    List.Chain' (· ≤ ·) (make_future_dataframe m periods) := by
  unfold make_future_dataframe
  rw [List.chain'_append]
  refine ⟨?_, ?_, ?_⟩
  · exact (List.sorted_insertionSort _ _).chain'
  · apply List.Pairwise.chain'
    refine List.Pairwise.map _ ?_ (List.pairwise_lt_range periods)
    intro a b hab
    exact add_le_add_left (by exact_mod_cast hab.le) _
  · intro x hx y hy
    cases periods with
    | zero => simp at hy
    | succ n =>
      rw [List.range_succ_eq_map, List.map_cons, List.head?_cons, Option.mem_def,
        Option.some.injEq] at hy
      have hx' : (history_dates m).getLast? = some x := hx
      have hxl : (history_dates m).getLastD 0 = x := by
        rw [List.getLastD_eq_getLast?, hx']
        rfl
      rw [← hy, hxl]
      simp

theorem predict_map_ds (m : ProphetModel) (dates : List Int) :
    (prophetPredict m dates).map (fun p => p.ds) = dates := by
  simp only [prophetPredict, List.map_map]
  induction dates with
  | nil => rfl
  | cons a t ih => simpa using ih

theorem predict_bounds (m : ProphetModel) (dates : List Int) :
    ∀ p ∈ prophetPredict m dates, p.yhat_lower ≤ p.yhat ∧ p.yhat ≤ p.yhat_upper := by
  have hsig : 0 ≤ ((m.history.map (fun q => q.2)).map
      (fun y => |y - sampleMean (m.history.map (fun q => q.2))|)).sum /
        (((m.history.map (fun q => q.2)).length : ℕ) : ℚ) := by
    apply div_nonneg
    · apply List.sum_nonneg
      intro x hx
      obtain ⟨y, _, rfl⟩ := List.mem_map.mp hx
      exact abs_nonneg _
    · exact Nat.cast_nonneg _
  intro p hp
  simp only [prophetPredict] at hp
  obtain ⟨dt, _, rfl⟩ := List.mem_map.mp hp
  dsimp only
  constructor
  · linarith
  · linarith

/-- Claim C4: for every department in the table (when every department's
series is long enough to fit, per §4.2), the forecast series returned by
`forecast_resources` has length equal to that department's historical record
count plus 90, its dates are monotonically non-decreasing, and
`lower_bound ≤ predicted_value ≤ upper_bound` at every point. -/
theorem forecast_series_shape (df : List MetricRecord) (d : String)
    (hd : d ∈ df.map (fun r => r.department))
    (hall : ∀ d' ∈ uniqueList (df.map (fun r => r.department)),
      2 ≤ (histSeries df d').length) :
    ∃ fc, lookupForecast (forecast_resources df) d = some fc ∧
      fc.length = (deptSlice df d).length + 90 ∧
      List.Chain' (· ≤ ·) (fc.map (fun p => p.ds)) ∧
      ∀ p ∈ fc, p.yhat_lower ≤ p.yhat ∧ p.yhat ≤ p.yhat_upper := by
  have hds : d ∈ uniqueList (df.map (fun r => r.department)) := mem_uniqueList.mpr hd
  have hloop := forecastLoop_ok df _ hall
  refine ⟨deptForecast df d, ?_, ?_, ?_, ?_⟩
  · unfold lookupForecast forecast_resources
    rw [hloop]
    dsimp only
    rw [find?_map_self (deptForecast df) _ d hds]
    rfl
  · have hlen : (histSeries df d).length = (deptSlice df d).length := by
      simp [histSeries]
    simp only [deptForecast, prophetPredict, List.length_map, length_make_future]
    rw [← hlen]
  · unfold deptForecast
    rw [predict_map_ds]
    exact chain'_make_future _ _
  · exact predict_bounds _ _

/-- Witness for C4 at the two-day fixture. -/
theorem forecast_series_shape_witness :
    ("IT" ∈ dfPair.map (fun r => r.department) ∧
      ∀ d' ∈ uniqueList (dfPair.map (fun r => r.department)),
        2 ≤ (histSeries dfPair d').length) ∧
    ∃ fc, lookupForecast (forecast_resources dfPair) "IT" = some fc ∧
      fc.length = (deptSlice dfPair "IT").length + 90 ∧
      List.Chain' (· ≤ ·) (fc.map (fun p => p.ds)) ∧
      ∀ p ∈ fc, p.yhat_lower ≤ p.yhat ∧ p.yhat ≤ p.yhat_upper :=
  ⟨⟨by decide, by decide⟩, forecast_series_shape dfPair "IT" (by decide) (by decide)⟩

/-- Counterexample to claim C7: in a table where department `A` has one record
(fitting fails) and department `B` has two (fitting would succeed), the whole
`forecast_resources` call aborts with the fit error and no forecast is
produced for `B` either. -/
theorem forecast_abort_cex :
    forecast_resources dfTwoDept = .error .valueError ∧
      lookupForecast (forecast_resources dfTwoDept) "B" = none ∧
      2 ≤ (histSeries dfTwoDept "B").length := by
  refine ⟨rfl, rfl, by decide⟩

/-- Claim C7 as amended: a fitting failure for any department is not caught —
the exception propagates, `forecast_resources` aborts, and no forecast map is
returned for any department (the per-department results are lost, not
collected). -/
theorem forecast_fit_failure_aborts (df : List MetricRecord) (d : String)
    (hd : d ∈ df.map (fun r => r.department))
    (hshort : (histSeries df d).length < 2) :
    forecast_resources df = .error .valueError ∧
      ∀ d' : String, lookupForecast (forecast_resources df) d' = none := by
  have herr : forecast_resources df = .error .valueError :=
    forecastLoop_error df _ ⟨d, mem_uniqueList.mpr hd, hshort⟩
  refine ⟨herr, fun d' => ?_⟩
  rw [herr]
  rfl

/-- Witness for the amended C7 at the two-department fixture. -/
theorem forecast_fit_failure_aborts_witness :
    ("A" ∈ dfTwoDept.map (fun r => r.department) ∧
      (histSeries dfTwoDept "A").length < 2) ∧
    (forecast_resources dfTwoDept = .error .valueError ∧
      ∀ d' : String, lookupForecast (forecast_resources dfTwoDept) d' = none) :=
  ⟨⟨by decide, by decide⟩, forecast_fit_failure_aborts dfTwoDept "A" (by decide) (by decide)⟩

end OpEff
